import Mathlib

/-!
Verification development for the `extractor/v2/extractor.py` module of
GitHub-Repo-Extractor.

The Python module is shallowly embedded below:
pure helper functions become Lean functions, the two iterative binary
searches become fuel-indexed recursive functions (fuel exhaustion models a
non-terminating `while` loop), fallible operations (list indexing, dict key
lookup) return `Except PyErr`, and the extraction loops become explicit
state-passing functions driven by a schedule of rate-limit events.

Python `int` values that stay non-negative throughout (indices, record
numbers, page lengths) are modelled as `Nat`; the source arithmetic keeps
them non-negative at every program point that the theorems touch, and the
truncated `Nat` subtractions below agree with the Python `int` values at
those points (comments at each site justify this).
-/

/-- Python-style runtime errors that the embedded code can raise.
`fuelOut` is not a Python error: it models a `while` loop that has not
finished within the given fuel. -/
inductive PyErr where
  | indexError : PyErr
  | keyError : String → PyErr
  | typeError : PyErr
  | fuelOut : PyErr
deriving DecidableEq

/-- JSON-like values, the codomain of the field extractors and the element
type of the output dictionaries written by the extractor. -/
inductive JVal where
  | s : String → JVal
  | b : Bool → JVal
  | i : Int → JVal
  | arr : List JVal → JVal
  | obj : List (String × JVal) → JVal
  | null : JVal

/- ------------------------------------------------------------------
Paginated-collection model.

The GitHub paginated lists are external collaborators (PyGithub objects,
accessed through the `sessions` module which is not part of the extractor
source). Only their record numbers are inspected by the index-resolution
code, so a collection is modelled by the flat ascending list of its record
numbers together with a page length.
------------------------------------------------------------------- -/

/-- Modelled from the spec: a PaginatedCollection exposes page-indexed
access with a fixed page length, the final page possibly shorter
("fixed (or last-page-variable) page length, and page-indexed access").
`get_page flat page_len i` is the `i`-th page of the collection whose flat
record-number list is `flat`. -/
def get_page (flat : List Nat) (page_len i : Nat) : List Nat :=
  (flat.drop (i * page_len)).take page_len

/-- Embedding of `_get_page_last_item` (extractor.py line 73):
`paged_list.get_page(page_index)[-1]`. Python indexing with `-1` raises
`IndexError` on an empty page. -/
def get_page_last_item (flat : List Nat) (page_len page_index : Nat) : Except PyErr Nat :=
  match (get_page flat page_len page_index).getLast? with
  | some v => Except.ok v
  | none => Except.error PyErr.indexError

/-- Embedding of the inner function `__bin_search_in_list` of
`_get_api_item_indices` (extractor.py lines 290-325). The mutable loop
variables `low` and `high` are threaded explicitly; one unit of fuel is
one iteration of the `while` loop. Both variables stay non-negative in
Python (inside the loop `high ≥ low + 2 ≥ 2`, hence `mid ≥ 1` and
`high := mid - 1 ≥ 0`), so `Nat` with truncated subtraction agrees with
the Python `int` arithmetic, including in the loop test `low < high - 1`.
Accessing `get_page(mid)[0]` or `[-1]` on an empty page raises
`IndexError`. The final `else` arm (no branch of the Python
`if`/`if`/`elif` taken) leaves the state unchanged, which in Python would
loop forever; it is unreachable for the first/last values of an ascending
page. -/
def bin_search_in_list (flat : List Nat) (page_len val : Nat) :
    Nat → Nat → Nat → Except PyErr Nat
  | 0, _, _ => Except.error PyErr.fuelOut
  | fuel + 1, low, high =>
    if low < high - 1 then
      let mid := (low + high) / 2
      match (get_page flat page_len mid).head?, (get_page flat page_len mid).getLast? with
      | some mid_first_val, some mid_last_val =>
        if mid_first_val ≤ val ∧ val ≤ mid_last_val then Except.ok mid
        else if val < mid_first_val then bin_search_in_list flat page_len val fuel low (mid - 1)
        else if val > mid_last_val then bin_search_in_list flat page_len val fuel (mid + 1) high
        else bin_search_in_list flat page_len val fuel low high
      | _, _ => Except.error PyErr.indexError
    else Except.ok low

/-- Embedding of the inner function `__bin_search_in_page` of
`_get_api_item_indices` (extractor.py lines 327-365). The mutable loop
variables `low` and `page_len` are threaded explicitly (the source mutates
its `page_len` parameter as the upper bound of the search). Inside the
loop `page_len ≥ low + 2 ≥ 2`, hence `mid ≥ 1` and `page_len := mid - 1`
stays non-negative, so `Nat` arithmetic agrees with Python. Indexing
`paged_list_page[mid]` past the end of the page raises `IndexError`. -/
def bin_search_in_page (page : List Nat) (val : Nat) :
    Nat → Nat → Nat → Except PyErr Nat
  | 0, _, _ => Except.error PyErr.fuelOut
  | fuel + 1, low, page_len =>
    if low < page_len - 1 then
      let mid := (low + page_len) / 2
      match page.get? mid with
      | none => Except.error PyErr.indexError
      | some cur_val =>
        if val = cur_val then Except.ok mid
        else if val < cur_val then bin_search_in_page page val fuel low (mid - 1)
        else bin_search_in_page page val fuel (mid + 1) page_len
    else Except.ok low

/-- Embedding of the body of the `for val in clean_range_tuple` loop of
`_get_api_item_indices` (extractor.py lines 391-414): locate the page of
`val`, locate its offset inside that page, and combine them into the flat
index `item_page_index + page_index * page_len`. `page_len` is the session
page length (`self.gh_sesh.get_pg_len()`), passed unchanged to the in-page
search exactly as the source does at line 399. The fuel given to each
search strictly exceeds the number of iterations its loop can perform
(each iteration shrinks `high - low`, respectively `page_len - low`, by at
least one). -/
def resolve_item_index (flat : List Nat) (page_len last_page_index val : Nat) :
    Except PyErr Nat :=
  match bin_search_in_list flat page_len val (last_page_index + 2) 0 last_page_index with
  | Except.error e => Except.error e
  | Except.ok page_index =>
    match bin_search_in_page (get_page flat page_len page_index) val (page_len + 2) 0 page_len with
    | Except.error e => Except.error e
    | Except.ok item_page_index => Except.ok (item_page_index + page_index * page_len)

/-- Embedding of `Extractor._get_api_item_indices` (extractor.py lines
276-418) applied to a requested range `(lo, hi)`: compute the last page
index and the highest record number, clamp both range values by
`min val highest_num`, and resolve each clamped value to a flat index.
The source assumes a non-empty collection; `totalCount = 0` would make
Python compute a negative last page index, a case outside this
embedding. -/
def get_api_item_indices (flat : List Nat) (page_len lo hi : Nat) :
    Except PyErr (Nat × Nat) :=
  let last_page_index := (flat.length - 1) / page_len
  match get_page_last_item flat page_len last_page_index with
  | Except.error e => Except.error e
  | Except.ok highest_num =>
    match resolve_item_index flat page_len last_page_index (min lo highest_num) with
    | Except.error e => Except.error e
    | Except.ok a =>
      match resolve_item_index flat page_len last_page_index (min hi highest_num) with
      | Except.error e => Except.error e
      | Except.ok b => Except.ok (a, b)

/- ------------------------------------------------------------------
Python dictionaries, modelled as association lists in insertion order.
------------------------------------------------------------------- -/

/-- Lookup of a key in a Python dictionary (first matching entry; a
well-formed Python dict never has duplicate keys). -/
def dlookup {α : Type} : List (String × α) → String → Option α
  | [], _ => none
  | p :: t, k => if k = p.1 then some p.2 else dlookup t k

/-- Key-membership test for a Python dictionary. -/
def containsKey {α : Type} (d : List (String × α)) (k : String) : Bool :=
  d.any (fun p => p.1 == k)

/-- Python dict assignment `d[k] = v`: replace the value in place when the
key exists, append a new entry otherwise. -/
def dinsert {α : Type} (d : List (String × α)) (k : String) (v : α) :
    List (String × α) :=
  if containsKey d k then d.map (fun p => if p.1 = k then (k, v) else p)
  else d ++ [(k, v)]

/-- Embedding of `_merge_dicts` (extractor.py lines 157-171):
`{**base, **to_merge}` builds a fresh dict holding the entries of `base`
and then assigns every entry of `to_merge` over it. -/
def merge_dicts {α : Type} (base to_merge : List (String × α)) :
    List (String × α) :=
  to_merge.foldl (fun acc p => dinsert acc p.1 p.2) base

/- ------------------------------------------------------------------
Python strings and the field-extractor helpers.
------------------------------------------------------------------- -/

/-- Python `s.replace(c, "")` for a single-character pattern: remove every
occurrence of the character. -/
def py_remove (c : Char) (s : String) : String :=
  String.mk (s.data.filter (fun a => a ≠ c))

/-- Whitespace characters removed by Python `str.strip()`. -/
def py_is_space (c : Char) : Bool :=
  c == ' ' || c == '\t' || c == '\n' || c == '\r' ||
    c == Char.ofNat 11 || c == Char.ofNat 12

/-- Python `str.strip()`: drop leading and trailing whitespace. -/
def py_strip (s : String) : String :=
  String.mk (((s.data.dropWhile py_is_space).reverse.dropWhile py_is_space).reverse)

/-- Python `str(x)` for an optional string: `None` prints as `"None"`. -/
def py_str : Option String → String
  | none => "None"
  | some s => s

/-- Python `sep.join(parts)`. -/
def join_sep (sep : String) : List String → String
  | [] => ""
  | [x] => x
  | x :: xs => x ++ sep ++ join_sep sep xs

/-- Concatenation of string pieces, as built by repeated `+=`. -/
def concat_all : List String → String
  | [] => ""
  | x :: xs => x ++ concat_all xs

/-- Embedding of the module constant `TIME_FMT` (extractor.py line 8). -/
def TIME_FMT : String := "%D, %I:%M:%S %p"

/-- Embedding of `_clean_str` (extractor.py lines 11-24): `None` or the
empty string become `"Nan"`; otherwise carriage returns and newlines are
removed and the result is stripped of surrounding whitespace. -/
def clean_str : Option String → String
  | none => "Nan"
  | some t => if t = "" then "Nan" else py_strip (py_remove '\n' (py_remove '\r' t))

/-- A user attached to an issue or pull request; `name` and `login` may be
missing on the remote side. -/
structure User where
  name : Option String
  login : Option String

/-- A remote datetime, abstracted to its `strftime` formatting behaviour
(the extractor only ever formats datetimes with `TIME_FMT`). -/
structure Datetime where
  strftime : String → String

/-- One file touched by a commit, with the attributes read by
`_get_commit_files`. `patch` and `status` may be `None` remotely; the
source wraps both in `str(...)`. -/
structure CommitFile where
  filename : String
  additions : Int
  changes : Int
  patch : Option String
  deletions : Int
  status : Option String

/-- A commit, with the attributes read by the commit field extractors
(`api_obj.commit.author.name` etc. are flattened into fields). -/
structure CommitObj where
  files : List CommitFile
  author_name : String
  author_date : Datetime
  committer_name : String
  message : Option String
  sha : String

/-- An issue or pull-request API object, carrying every attribute that the
extractor getters read (Python is duck-typed, and the getters are shared
between the two kinds of record). `comments` holds the comment bodies of
the record and `commits` its associated commits, in list order. -/
structure ApiObj where
  number : Nat
  body : Option String
  closed_at : Option Datetime
  title : String
  user : User
  comments : List String
  merged : Bool
  commits : List CommitObj

/-- Embedding of `_get_body` (extractor.py line 27). -/
def get_body (a : ApiObj) : String := clean_str a.body

/-- Embedding of `_get_closed_time` (extractor.py line 36). -/
def get_closed_time (a : ApiObj) : String :=
  match a.closed_at with
  | some d => d.strftime TIME_FMT
  | none => "NaN"

/-- Embedding of `_get_issue_comments` (extractor.py line 50): when the
record has comments, their bodies are stripped, joined with the delimiter
and cleaned; otherwise `"NaN"`. -/
def get_issue_comments (a : ApiObj) : String :=
  if a.comments.length ≠ 0 then
    clean_str (some (join_sep " =||= " (a.comments.map py_strip)))
  else "NaN"

/-- Embedding of `_get_pr_merged` (extractor.py line 77). -/
def get_pr_merged (a : ApiObj) : Bool := a.merged

/-- Embedding of `_get_title` (extractor.py line 81). -/
def get_title (a : ApiObj) : String := a.title

/-- Embedding of `_get_username` (extractor.py line 85). -/
def get_username (a : ApiObj) : String := clean_str a.user.name

/-- Embedding of `_get_userlogin` (extractor.py line 89). -/
def get_userlogin (a : ApiObj) : String := clean_str a.user.login

/-- Embedding of `_get_commit_auth_date` (extractor.py line 93). -/
def get_commit_auth_date (c : CommitObj) : String :=
  c.author_date.strftime TIME_FMT

/-- Embedding of `_get_commit_auth_name` (extractor.py line 97). -/
def get_commit_auth_name (c : CommitObj) : String := c.author_name

/-- Embedding of `_get_commit_committer` (extractor.py line 101). -/
def get_commit_committer (c : CommitObj) : String := c.committer_name

/-- Embedding of `_get_commit_msg` (extractor.py line 149). -/
def get_commit_msg (c : CommitObj) : String := clean_str c.message

/-- Embedding of `_get_commit_sha` (extractor.py line 153). -/
def get_commit_sha (c : CommitObj) : String := c.sha

/-- Embedding of `_get_commit_files` (extractor.py lines 105-146): one
pass over the commit files accumulates the file names, the integer
addition/change/removal totals and the comma-joined patch and status
strings; the result is the dictionary built at lines 139-146. -/
def get_commit_files (c : CommitObj) : JVal :=
  JVal.obj
    [("file_list", JVal.arr (c.files.map (fun f => JVal.s f.filename))),
     ("additions", JVal.i (c.files.map (fun f => f.additions)).sum),
     ("changes", JVal.i (c.files.map (fun f => f.changes)).sum),
     ("patch_text",
       JVal.s (clean_str (some (concat_all (c.files.map (fun f => py_str f.patch ++ ", ")))))),
     ("removals", JVal.i (c.files.map (fun f => f.deletions)).sum),
     ("status",
       JVal.s (clean_str (some
         ("\"" ++ concat_all (c.files.map (fun f => py_str f.status ++ ", ")) ++ "\""))))]

/- ------------------------------------------------------------------
Dispatch tables and the per-record entry builders.
------------------------------------------------------------------- -/

/-- Embedding of `Extractor.__COMMIT_CMD_DISPATCH` (extractor.py lines
184-191); an unknown key is `none` (Python would raise `KeyError`). -/
def COMMIT_CMD_DISPATCH : String → Option (CommitObj → JVal)
  | "commit_author_name" => some (fun c => JVal.s (get_commit_auth_name c))
  | "committer" => some (fun c => JVal.s (get_commit_committer c))
  | "commit_date" => some (fun c => JVal.s (get_commit_auth_date c))
  | "commit_files" => some get_commit_files
  | "commit_message" => some (fun c => JVal.s (get_commit_msg c))
  | "commit_sha" => some (fun c => JVal.s (get_commit_sha c))
  | _ => none

/-- Embedding of `Extractor.__ISSUE_CMD_DISPATCH` (extractor.py lines
193-200). -/
def ISSUE_CMD_DISPATCH : String → Option (ApiObj → JVal)
  | "issue_body" => some (fun a => JVal.s (get_body a))
  | "issue_closed" => some (fun a => JVal.s (get_closed_time a))
  | "issue_comments" => some (fun a => JVal.s (get_issue_comments a))
  | "issue_title" => some (fun a => JVal.s (get_title a))
  | "issue_userlogin" => some (fun a => JVal.s (get_userlogin a))
  | "issue_username" => some (fun a => JVal.s (get_username a))
  | _ => none

/-- Embedding of `Extractor.__PR_CMD_DISPATCH` (extractor.py lines
202-209). -/
def PR_CMD_DISPATCH : String → Option (ApiObj → JVal)
  | "pr_body" => some (fun a => JVal.s (get_body a))
  | "pr_closed" => some (fun a => JVal.s (get_closed_time a))
  | "__pr_merged" => some (fun a => JVal.b (get_pr_merged a))
  | "pr_title" => some (fun a => JVal.s (get_title a))
  | "pr_userlogin" => some (fun a => JVal.s (get_userlogin a))
  | "pr_username" => some (fun a => JVal.s (get_username a))
  | _ => none

/-- A dict comprehension `{field: DISPATCH[field](obj) for field in fields}`:
the fields are looked up left to right and an unknown field raises
`KeyError`. -/
def fieldsData {β : Type} (dispatch : String → Option (β → JVal)) :
    List String → β → Except PyErr (List (String × JVal))
  | [], _ => Except.ok []
  | f :: fs, obj =>
    match dispatch f with
    | none => Except.error (PyErr.keyError f)
    | some g =>
      match fieldsData dispatch fs obj with
      | Except.error e => Except.error e
      | Except.ok rest => Except.ok ((f, g obj) :: rest)

/-- The `try`-block body of one `get_issues_data` iteration (extractor.py
lines 458-466): build the field dictionary of the current issue keyed by
its number. -/
def issue_entry (issues_fields : List String) (cur_issue : ApiObj) :
    Except PyErr (String × JVal) := do
  let cur_item_data ← fieldsData ISSUE_CMD_DISPATCH issues_fields cur_issue
  pure (toString cur_issue.number, JVal.obj cur_item_data)

/-- Embedding of the inner function `__get_last_commit` of `get_pr_data`
(extractor.py lines 533-549): index `totalCount - 1` of the commit list;
an empty commit list raises `IndexError`. -/
def get_last_commit (pr : ApiObj) : Except PyErr CommitObj :=
  match pr.commits.get? (pr.commits.length - 1) with
  | some c => Except.ok c
  | none => Except.error PyErr.indexError

/-- The `try`-block body of one `get_pr_data` iteration (extractor.py
lines 569-603): always record the `__pr_merged` flag; when the PR is
merged or the configured state is `"open"`, merge in the configured PR
fields and, when the latest commit of the PR touched at least one file,
also the configured commit fields. -/
def pr_entry (state : String) (pr_fields commit_fields : List String)
    (cur_pr : ApiObj) : Except PyErr (String × JVal) :=
  let is_merged := cur_pr.merged
  let cur_entry : List (String × JVal) := [("__pr_merged", JVal.b is_merged)]
  if is_merged || state = "open" then
    match fieldsData PR_CMD_DISPATCH pr_fields cur_pr with
    | Except.error e => Except.error e
    | Except.ok cur_entry_data =>
      let cur_entry_pr := merge_dicts cur_entry cur_entry_data
      match get_last_commit cur_pr with
      | Except.error e => Except.error e
      | Except.ok last_commit =>
        if last_commit.files.length > 0 then
          match fieldsData COMMIT_CMD_DISPATCH commit_fields last_commit with
          | Except.error e => Except.error e
          | Except.ok commit_data =>
            Except.ok (toString cur_pr.number, JVal.obj (merge_dicts cur_entry_pr commit_data))
        else Except.ok (toString cur_pr.number, JVal.obj cur_entry_pr)
  else Except.ok (toString cur_pr.number, JVal.obj cur_entry)

/- ------------------------------------------------------------------
The extraction loop.
------------------------------------------------------------------- -/

/-- Modelled from the spec: `file_io.write_merged_dict_to_json` (module
`v2.file_io`, not under src/) merge-writes a flushed dictionary into the
persistent store, "new keys added without discarding existing file
content"; for the nested output shape this merges the inner record maps
key-wise so that successive partial flushes accumulate. -/
def store_merge (store flushed : List (String × JVal)) : List (String × JVal) :=
  flushed.foldl
    (fun acc p =>
      match dlookup acc p.1, p.2 with
      | some (JVal.obj o1), JVal.obj o2 => dinsert acc p.1 (JVal.obj (merge_dicts o1 o2))
      | _, v => dinsert acc p.1 v)
    store

/-- The mutable state of one extraction loop: the current index
`start_val`, the in-memory accumulator `data_dict`, and the contents of
the persistent store (the output file written so far). -/
structure LoopState where
  start_val : Nat
  data_dict : List (String × JVal)
  store : List (String × JVal)

/-- The common `while`/`try`/`except`/`else` loop of `get_issues_data`
(extractor.py lines 456-479) and `get_pr_data` (lines 568-616),
parametrised by the per-record entry builder and the root key of the
output dictionary (`"issue"` or `"pr"`). The schedule lists, for each
attempted iteration, whether the remote session raises
`RateLimitExceededException` during the `try` block. On a rate-limit the
accumulator is merge-written to the store, `data_dict.clear()` empties the
accumulator, `sleep_gh_session` blocks (not observable here) and the loop
re-enters with the same index. Otherwise the `else` branch assigns
`data_dict[rootKey] = _merge_dicts(data_dict[rootKey], cur_entry)` —
raising `KeyError` when `rootKey` is absent — and advances the index.
After the loop, the remaining accumulator is merge-written. The result is
the final store contents paired with the uncaught error, if any. -/
def ext_loop (entry : Nat → Except PyErr (String × JVal)) (rootKey : String)
    (end_val : Nat) :
    List Bool → Nat → LoopState → List (String × JVal) × Option PyErr
  | _, 0, st => (st.store, some PyErr.fuelOut)
  | sched, fuel + 1, st =>
    if st.start_val < end_val + 1 then
      match sched with
      | [] => (st.store, some PyErr.fuelOut)
      | rl :: rest =>
        if rl then
          ext_loop entry rootKey end_val rest fuel
            ⟨st.start_val, [], store_merge st.store st.data_dict⟩
        else
          match entry st.start_val with
          | Except.error e => (st.store, some e)
          | Except.ok cur_entry =>
            match dlookup st.data_dict rootKey with
            | none => (st.store, some (PyErr.keyError rootKey))
            | some (JVal.obj o) =>
              ext_loop entry rootKey end_val rest fuel
                ⟨st.start_val + 1,
                 dinsert st.data_dict rootKey (JVal.obj (merge_dicts o [cur_entry])),
                 st.store⟩
            | some _ => (st.store, some PyErr.typeError)
    else (store_merge st.store st.data_dict, none)

/-- Embedding of `Extractor.get_issues_data` (extractor.py lines 429-479):
resolve the configured range against the issue collection, then run the
extraction loop from the start index with `data_dict = {"issue": {}}` over
an initially empty output file. A failure of index resolution terminates
the run before anything is written. -/
def get_issues_data (issues : List ApiObj) (issues_fields : List String)
    (page_len lo hi : Nat) (sched : List Bool) (fuel : Nat) :
    List (String × JVal) × Option PyErr :=
  match get_api_item_indices (issues.map (fun a => a.number)) page_len lo hi with
  | Except.error e => ([], some e)
  | Except.ok (start_val, end_val) =>
    ext_loop
      (fun i =>
        match issues.get? i with
        | none => Except.error PyErr.indexError
        | some it => issue_entry issues_fields it)
      "issue" end_val sched fuel ⟨start_val, [("issue", JVal.obj [])], []⟩

/-- Embedding of `Extractor.get_pr_data` (extractor.py lines 513-616):
resolve the configured range against the PR collection, then run the
extraction loop from the start index with `data_dict = {"pr": {}}` over an
initially empty output file. -/
def get_pr_data (prs : List ApiObj) (state : String)
    (pr_fields commit_fields : List String) (page_len lo hi : Nat)
    (sched : List Bool) (fuel : Nat) :
    List (String × JVal) × Option PyErr :=
  match get_api_item_indices (prs.map (fun a => a.number)) page_len lo hi with
  | Except.error e => ([], some e)
  | Except.ok (start_val, end_val) =>
    ext_loop
      (fun i =>
        match prs.get? i with
        | none => Except.error PyErr.indexError
        | some it => pr_entry state pr_fields commit_fields it)
      "pr" end_val sched fuel ⟨start_val, [("pr", JVal.obj [])], []⟩

/- ------------------------------------------------------------------
Auxiliary definitions used by the theorems.
------------------------------------------------------------------- -/

/-- Value of a dispatch-table entry, `null` outside the table (only used
under a table-membership hypothesis). -/
def dispatch_val {β : Type} (dispatch : String → Option (β → JVal)) (f : String) (obj : β) : JVal :=
  match dispatch f with
  | some g => g obj
  | none => JVal.null

/-- Tests whether a value is a JSON string. -/
def isStr : JVal → Bool
  | JVal.s _ => true
  | _ => false

/-- Tests whether a value is a JSON boolean. -/
def isBool : JVal → Bool
  | JVal.b _ => true
  | _ => false

/-- Tests whether a value is a JSON array of strings. -/
def isStrArr : JVal → Bool
  | JVal.arr l => l.all isStr
  | _ => false

/-- Shape of the `_get_commit_files` result: an object whose `file_list`
is an array of strings, whose `additions`, `changes` and `removals` are
integers, and whose `patch_text` and `status` are strings; no member is
`null`. -/
def isCommitFilesShape : JVal → Bool
  | JVal.obj [("file_list", JVal.arr fl), ("additions", JVal.i _), ("changes", JVal.i _),
      ("patch_text", JVal.s _), ("removals", JVal.i _), ("status", JVal.s _)] => fl.all isStr
  | _ => false

/-- Fixture: a constant-formatting datetime. -/
def sample_datetime : Datetime := ⟨fun _ => "01/01/24, 01:00:00 PM"⟩

/-- Fixture: a user with both name and login present. -/
def sample_user : User := ⟨some "Ann", some "ann"⟩

/-- Fixture: issue number 1. -/
def sample_issue_one : ApiObj := ⟨1, some "b1", none, "t1", sample_user, [], false, []⟩

/-- Fixture: issue number 2. -/
def sample_issue_two : ApiObj := ⟨2, some "b2", none, "t2", sample_user, [], false, []⟩

/-- Fixture: a commit file with one addition, two changes, one deletion. -/
def sample_commit_file : CommitFile := ⟨"a.txt", 1, 2, some "p", 1, some "m"⟩

/-- Fixture: a commit touching one file. -/
def sample_commit : CommitObj :=
  ⟨[sample_commit_file], "A", sample_datetime, "C", some "msg", "sha0"⟩

/-- Fixture: a commit touching no files. -/
def sample_commit_nofiles : CommitObj := ⟨[], "A", sample_datetime, "C", some "msg", "sha1"⟩

/-- Fixture: a merged PR (number 9) whose latest commit touched one file. -/
def sample_pr_merged : ApiObj := ⟨9, some "pb", none, "pt", sample_user, [], true, [sample_commit]⟩

/-- Fixture: a merged PR (number 7) whose latest commit touched no files. -/
def sample_pr_merged_nofiles : ApiObj :=
  ⟨7, some "pb", none, "pt", sample_user, [], true, [sample_commit_nofiles]⟩

/-- Fixture: an unmerged PR (number 8). -/
def sample_pr_unmerged : ApiObj :=
  ⟨8, some "pb", none, "pt", sample_user, [], false, [sample_commit]⟩

/-- Fixture: an entry builder that always succeeds with a fixed entry. -/
def sample_entry_fn : Nat → Except PyErr (String × JVal) :=
  fun _ => Except.ok ("1", JVal.obj [])

/-- Fixture: a loop state at index 0 with an accumulator rooted at
`"issue"`. -/
def sample_state : LoopState := ⟨0, [("issue", JVal.obj [])], []⟩

/- ------------------------------------------------------------------
Helper lemmas about the dictionary model.
------------------------------------------------------------------- -/

theorem dlookup_map_replace_ne {α : Type} (d : List (String × α)) (k a : String) (v : α)
    (h : a ≠ k) :
    dlookup (d.map (fun p => if p.1 = k then (k, v) else p)) a = dlookup d a := by
  induction d with
  | nil => rfl
  | cons x t ih =>
    obtain ⟨x1, x2⟩ := x
    by_cases hx : x1 = k
    · subst hx
      simp [dlookup, h, ih]
    · simp [dlookup, hx, ih]

theorem dlookup_map_replace_mem {α : Type} (d : List (String × α)) (k : String) (v : α)
    (h : containsKey d k = true) :
    dlookup (d.map (fun p => if p.1 = k then (k, v) else p)) k = some v := by
  induction d with
  | nil => simp [containsKey] at h
  | cons x t ih =>
    obtain ⟨x1, x2⟩ := x
    by_cases hx : x1 = k
    · subst hx
      simp [dlookup]
    · have ht : containsKey t k = true := by
        simp [containsKey, hx] at h
        simpa [containsKey] using h
      simp [dlookup, hx, Ne.symm hx, ih ht]

theorem dlookup_append_single {α : Type} (d : List (String × α)) (k a : String) (v : α)
    (h : containsKey d k = false) :
    dlookup (d ++ [(k, v)]) a = if a = k then some v else dlookup d a := by
  induction d with
  | nil => simp [dlookup]
  | cons x t ih =>
    obtain ⟨x1, x2⟩ := x
    have hx : x1 ≠ k := by
      intro hh
      simp [containsKey, hh] at h
    have ht : containsKey t k = false := by
      simp [containsKey] at h ⊢
      exact h.2
    by_cases ha : a = x1
    · subst ha
      simp [dlookup, fun hh => hx hh ]
    · simp [dlookup, ha, ih ht]

theorem dlookup_dinsert {α : Type} (d : List (String × α)) (k a : String) (v : α) :
    dlookup (dinsert d k v) a = if a = k then some v else dlookup d a := by
  by_cases h : containsKey d k
  · by_cases ha : a = k
    · subst ha
      simp [dinsert, h, dlookup_map_replace_mem d a v h]
    · simp [dinsert, h, dlookup_map_replace_ne d k a v ha, ha]
  · have h' : containsKey d k = false := by simpa using h
    simp [dinsert, h', dlookup_append_single d k a v h']

theorem containsKey_map_replace {α : Type} (d : List (String × α)) (k a : String) (v : α) :
    containsKey (d.map (fun p => if p.1 = k then (k, v) else p)) a = containsKey d a := by
  induction d with
  | nil => rfl
  | cons x t ih =>
    obtain ⟨x1, x2⟩ := x
    by_cases hx : x1 = k
    · subst hx
      simp [containsKey] at ih ⊢
      rw [ih]
    · simp [containsKey, hx] at ih ⊢
      rw [ih]

theorem containsKey_dinsert {α : Type} (d : List (String × α)) (k a : String) (v : α) :
    containsKey (dinsert d k v) a = (containsKey d a || (a == k)) := by
  by_cases h : containsKey d k
  · rw [dinsert, if_pos h, containsKey_map_replace]
    by_cases ha : a = k
    · subst ha
      simp [h]
    · simp [ha]
  · rw [dinsert, if_neg h]
    by_cases ha : a = k
    · subst ha
      simp [containsKey, List.any_append]
    · have h1 : (k == a) = false := by simpa using Ne.symm ha
      have h2 : (a == k) = false := by simpa using ha
      simp [containsKey, List.any_append, h1, h2]

theorem containsKey_merge_dicts {α : Type} (base to_merge : List (String × α)) (a : String) :
    containsKey (merge_dicts base to_merge) a = (containsKey base a || containsKey to_merge a) := by
  induction to_merge generalizing base with
  | nil => simp [merge_dicts, containsKey]
  | cons x t ih =>
    obtain ⟨x1, x2⟩ := x
    show containsKey (merge_dicts (dinsert base x1 x2) t) a = _
    rw [ih, containsKey_dinsert]
    by_cases hax : a = x1
    · subst hax
      simp [containsKey, Bool.or_comm, Bool.or_left_comm]
    · have h1 : (a == x1) = false := by simpa using hax
      have h2 : (x1 == a) = false := by simpa using Ne.symm hax
      simp [containsKey, h1, h2]

theorem dlookup_eq_none_of_not_mem {α : Type} (d : List (String × α)) (k : String)
    (h : k ∉ d.map Prod.fst) :
    dlookup d k = none := by
  induction d with
  | nil => rfl
  | cons x t ih =>
    rw [List.map_cons, List.mem_cons, not_or] at h
    rw [dlookup, if_neg h.1]
    exact ih h.2

theorem dlookup_merge_dicts {α : Type} (base to_merge : List (String × α))
    (h : (to_merge.map Prod.fst).Nodup) (a : String) :
    dlookup (merge_dicts base to_merge) a =
      (dlookup to_merge a).orElse (fun _ => dlookup base a) := by
  induction to_merge generalizing base with
  | nil => simp [merge_dicts, dlookup, Option.orElse]
  | cons x t ih =>
    obtain ⟨x1, x2⟩ := x
    rw [List.map_cons, List.nodup_cons] at h
    show dlookup (merge_dicts (dinsert base x1 x2) t) a = _
    rw [ih _ h.2]
    by_cases ha : a = x1
    · subst ha
      rw [dlookup_eq_none_of_not_mem t a h.1]
      simp [dlookup, dlookup_dinsert, Option.orElse]
    · simp [dlookup, ha, dlookup_dinsert, Option.orElse]

theorem dlookup_merge_map_fields {α : Type} (b : List (String × α)) (fields : List String)
    (g : String → α) (a : String) :
    dlookup (merge_dicts b (fields.map (fun f => (f, g f)))) a =
      if a ∈ fields then some (g a) else dlookup b a := by
  induction fields generalizing b with
  | nil => simp [merge_dicts]
  | cons f fs ih =>
    show dlookup (merge_dicts (dinsert b f (g f)) (fs.map (fun f => (f, g f)))) a = _
    rw [ih]
    by_cases hfs : a ∈ fs
    · simp [hfs, List.mem_cons]
    · by_cases haf : a = f
      · subst haf
        simp [hfs, dlookup_dinsert]
      · simp [hfs, haf, dlookup_dinsert]

theorem containsKey_map_fields {α : Type} (fields : List String) (g : String → α) (a : String) :
    containsKey (fields.map (fun f => (f, g f))) a = decide (a ∈ fields) := by
  induction fields with
  | nil => simp [containsKey]
  | cons f fs ih =>
    by_cases haf : a = f
    · subst haf
      simp [containsKey]
    · have h1 : (f == a) = false := by simpa using Ne.symm haf
      simp [containsKey, h1, haf] at ih ⊢
      rw [ih]

theorem fieldsData_eq_ok {β : Type} (dispatch : String → Option (β → JVal))
    (fields : List String) (obj : β)
    (h : ∀ f ∈ fields, (dispatch f).isSome) :
    fieldsData dispatch fields obj =
      Except.ok (fields.map (fun f => (f, dispatch_val dispatch f obj))) := by
  induction fields with
  | nil => rfl
  | cons f fs ih =>
    have hf : (dispatch f).isSome := h f (List.mem_cons_self f fs)
    obtain ⟨g, hg⟩ := Option.isSome_iff_exists.mp hf
    have ihh := ih (fun x hx => h x (List.mem_cons_of_mem f hx))
    rw [fieldsData, hg, ihh]
    simp [dispatch_val, hg]

/- ------------------------------------------------------------------
Claim theorems.
------------------------------------------------------------------- -/

/-- Claim C1. The claim states that the in-page binary search returns the
exact offset of a record whose number equals the target when present, and
otherwise the offset of the greatest number strictly less than the target.
This theorem evaluates `__bin_search_in_page` at two failing inputs and
refutes both halves of the claim: on the ascending 4-element page
`[1, 3, 5, 7]` with target 3 (present at offset 1, between the page's
first and last numbers) the search returns offset 0, whose number is 1;
on the page `[1, 2, 4]` with target 3 (absent; floor offset is 1, holding
number 2) the search returns offset 2, whose number 4 is strictly greater
than the target. The starting state `low = 0` and third argument equal to
the page length mirror the call site, and the fuel exceeds every possible
iteration count. -/
theorem c1_eval :
    bin_search_in_page [1, 3, 5, 7] 3 6 0 4 = Except.ok 0 ∧
    [1, 3, 5, 7].get? 1 = some 3 ∧
    [1, 3, 5, 7].get? 0 = some 1 ∧
    bin_search_in_page [1, 2, 4] 3 6 0 3 = Except.ok 2 ∧
    [1, 2, 4].get? 1 = some 2 ∧
    [1, 2, 4].get? 2 = some 4 := by
  refine ⟨rfl, rfl, rfl, rfl, rfl, rfl⟩

/-- Claim C2. The claim states that the page-level binary search returns
the index of the page whose first and last record numbers bracket the
target inclusively (or the nearest lower page for an inter-page gap).
This theorem evaluates `__bin_search_in_list` at a failing input: for the
gap-free collection 1..60 with page length 30 (last page index 1), the
target 45 lies on page 1 (records 31..60, as the head and last conjuncts
show), yet the search returns page 0, whose last record is 30 — the loop
guard `low < high - 1` is false immediately for `low = 0, high = 1`, so
`low` is returned without any page ever being examined. -/
theorem c2_eval :
    ((List.range' 1 60).length - 1) / 30 = 1 ∧
    bin_search_in_list (List.range' 1 60) 30 45 3 0 1 = Except.ok 0 ∧
    (get_page (List.range' 1 60) 30 1).head? = some 31 ∧
    (get_page (List.range' 1 60) 30 1).getLast? = some 60 ∧
    (get_page (List.range' 1 60) 30 0).getLast? = some 30 := by
  refine ⟨rfl, rfl, rfl, rfl, rfl⟩

/-- Claim C3. The claim states that an extraction run interrupted by a
rate-limit signal at index `i` and resumed persists the same final output
as an uninterrupted run. This theorem evaluates `get_issues_data` over
issues numbered 1 and 2 (page length 2, range [1, 2], fields
`["issue_title"]`) with a rate-limit on the second iteration: the resumed
run crashes with `KeyError("issue")` — `data_dict.clear()` removed the
`"issue"` root key, so the first `else`-branch merge after the flush fails
— and the persisted output holds only issue 1, while the uninterrupted run
over the same range persists issues 1 and 2. -/
theorem c3_eval :
    get_issues_data [sample_issue_one, sample_issue_two] ["issue_title"] 2 1 2
        [false, true, false, false] 10 =
      ([("issue", JVal.obj [("1", JVal.obj [("issue_title", JVal.s "t1")])])],
       some (PyErr.keyError "issue")) ∧
    get_issues_data [sample_issue_one, sample_issue_two] ["issue_title"] 2 1 2
        [false, false] 10 =
      ([("issue", JVal.obj [("1", JVal.obj [("issue_title", JVal.s "t1")]),
                           ("2", JVal.obj [("issue_title", JVal.s "t2")])])], none) := by
  refine ⟨rfl, rfl⟩

/-- Claim C4. When a rate-limit exception is raised while the extraction
loop processes index `i`, the loop merge-writes the accumulator to the
store, clears the accumulator, blocks until quota resets, and re-enters at
the same index `i` without propagating the rate-limit condition (`PyErr`
has no rate-limit constructor: the exception is always caught); the index
is advanced only by a successful iteration. The first equation shows the
rate-limit step: the store receives the merged accumulator, the
accumulator becomes empty, and the loop continues at the unchanged
`st.start_val`. The second equation shows the successful step advancing
the index to `st.start_val + 1`. -/
theorem c4_loop_step (entry : Nat → Except PyErr (String × JVal)) (rootKey : String)
    (end_val : Nat) (rest : List Bool) (fuel : Nat) (st : LoopState)
    (cur_entry : String × JVal) (o : List (String × JVal))
    (h : st.start_val < end_val + 1)
    (h2 : entry st.start_val = Except.ok cur_entry)
    (h3 : dlookup st.data_dict rootKey = some (JVal.obj o)) :
    ext_loop entry rootKey end_val (true :: rest) (fuel + 1) st =
      ext_loop entry rootKey end_val rest fuel
        ⟨st.start_val, [], store_merge st.store st.data_dict⟩ ∧
    ext_loop entry rootKey end_val (false :: rest) (fuel + 1) st =
      ext_loop entry rootKey end_val rest fuel
        ⟨st.start_val + 1,
         dinsert st.data_dict rootKey (JVal.obj (merge_dicts o [cur_entry])),
         st.store⟩ := by
  constructor
  · rw [ext_loop]
    simp [h]
  · rw [ext_loop]
    simp [h, h2, h3]

/-- Witness for C4 at a concrete loop state. -/
theorem c4_witness :
    ext_loop sample_entry_fn "issue" 0 [true] 1 sample_state =
      ext_loop sample_entry_fn "issue" 0 [] 0
        ⟨0, [], store_merge [] [("issue", JVal.obj [])]⟩ ∧
    ext_loop sample_entry_fn "issue" 0 [false] 1 sample_state =
      ext_loop sample_entry_fn "issue" 0 [] 0
        ⟨0 + 1,
         dinsert [("issue", JVal.obj [])] "issue" (JVal.obj (merge_dicts [] [("1", JVal.obj [])])),
         []⟩ :=
  c4_loop_step sample_entry_fn "issue" 0 [] 0 sample_state ("1", JVal.obj []) []
    (by decide) rfl rfl

/-- Claim C5. Resolving a range whose high endpoint lies strictly above
the collection's maximum record number (`highest`, the number of the very
last record) yields the same result — in particular the same end index —
as resolving with the high endpoint set exactly to that maximum, because
`_get_api_item_indices` clamps each endpoint to `min(value, highest_num)`
before any index resolution. -/
theorem c5_clamp (flat : List Nat) (page_len lo hi highest : Nat)
    (h1 : get_page_last_item flat page_len ((flat.length - 1) / page_len) = Except.ok highest)
    (h2 : highest < hi) :
    get_api_item_indices flat page_len lo hi = get_api_item_indices flat page_len lo highest := by
  simp only [get_api_item_indices, h1, Nat.min_eq_right (Nat.le_of_lt h2), Nat.min_self]

/-- Witness for C5 on the collection `[1, 2, 3]` with page length 2. -/
theorem c5_witness :
    get_page_last_item [1, 2, 3] 2 (([1, 2, 3].length - 1) / 2) = Except.ok 3 ∧
    (3 : Nat) < 5 ∧
    get_api_item_indices [1, 2, 3] 2 1 5 = get_api_item_indices [1, 2, 3] 2 1 3 :=
  ⟨rfl, by decide, c5_clamp [1, 2, 3] 2 1 5 3 rfl (by decide)⟩

/-- Claim C6. In the pull-request entry builder: a merged PR whose latest
commit `lc` touched zero files yields an entry holding the merged flag
(`__pr_merged ↦ true`) and every configured PR field, and nothing else —
in particular no commit fields; an unmerged PR processed under the
`"closed"` state filter yields exactly the singleton entry
`{"__pr_merged": false}`. The validity hypothesis `h4` reflects the
configuration schema, which only admits PR field names drawn from the
dispatch table. -/
theorem c6_pr_entry (pr1 pr2 : ApiObj) (lc : CommitObj) (pr_fields commit_fields : List String)
    (h1 : pr1.merged = true)
    (h2 : get_last_commit pr1 = Except.ok lc)
    (h3 : lc.files = [])
    (h4 : ∀ f ∈ pr_fields, (PR_CMD_DISPATCH f).isSome)
    (h5 : pr2.merged = false) :
    pr_entry "closed" pr_fields commit_fields pr1 =
      Except.ok (toString pr1.number,
        JVal.obj (merge_dicts [("__pr_merged", JVal.b true)]
          (pr_fields.map (fun f => (f, dispatch_val PR_CMD_DISPATCH f pr1))))) ∧
    dlookup (merge_dicts [("__pr_merged", JVal.b true)]
        (pr_fields.map (fun f => (f, dispatch_val PR_CMD_DISPATCH f pr1)))) "__pr_merged" =
      some (JVal.b true) ∧
    (∀ f ∈ pr_fields,
      dlookup (merge_dicts [("__pr_merged", JVal.b true)]
          (pr_fields.map (fun f => (f, dispatch_val PR_CMD_DISPATCH f pr1)))) f =
        some (dispatch_val PR_CMD_DISPATCH f pr1)) ∧
    (∀ k, containsKey (merge_dicts [("__pr_merged", JVal.b true)]
        (pr_fields.map (fun f => (f, dispatch_val PR_CMD_DISPATCH f pr1)))) k = true →
      k = "__pr_merged" ∨ k ∈ pr_fields) ∧
    pr_entry "closed" pr_fields commit_fields pr2 =
      Except.ok (toString pr2.number, JVal.obj [("__pr_merged", JVal.b false)]) := by
  refine ⟨?_, ?_, ?_, ?_, ?_⟩
  · simp only [pr_entry, h1, fieldsData_eq_ok _ _ _ h4, h2, h3]
    rfl
  · rw [dlookup_merge_map_fields]
    by_cases hm : "__pr_merged" ∈ pr_fields
    · rw [if_pos hm]
      have hv : dispatch_val PR_CMD_DISPATCH "__pr_merged" pr1 = JVal.b pr1.merged := rfl
      rw [hv, h1]
    · rw [if_neg hm]
      rfl
  · intro f hf
    rw [dlookup_merge_map_fields, if_pos hf]
  · intro k hk
    rw [containsKey_merge_dicts, containsKey_map_fields] at hk
    rcases Bool.or_eq_true_iff.mp hk with hk | hk
    · left
      have hbeq : ("__pr_merged" == k) = true := by simpa [containsKey] using hk
      exact (eq_of_beq hbeq).symm
    · right
      exact of_decide_eq_true hk
  · simp [pr_entry, h5]

/-- Witness for C6 on a merged fixture PR with a file-less latest commit
and an unmerged fixture PR. -/
theorem c6_witness :
    pr_entry "closed" ["pr_title"] ["commit_files"] sample_pr_merged_nofiles =
      Except.ok ("7",
        JVal.obj (merge_dicts [("__pr_merged", JVal.b true)]
          (["pr_title"].map
            (fun f => (f, dispatch_val PR_CMD_DISPATCH f sample_pr_merged_nofiles))))) ∧
    pr_entry "closed" ["pr_title"] ["commit_files"] sample_pr_unmerged =
      Except.ok ("8", JVal.obj [("__pr_merged", JVal.b false)]) :=
  ⟨(c6_pr_entry sample_pr_merged_nofiles sample_pr_unmerged sample_commit_nofiles
      ["pr_title"] ["commit_files"] rfl rfl rfl (by decide) rfl).1,
   (c6_pr_entry sample_pr_merged_nofiles sample_pr_unmerged sample_commit_nofiles
      ["pr_title"] ["commit_files"] rfl rfl rfl (by decide) rfl).2.2.2.2⟩

/-- Claim C7. For the gap-free collection of 100 records numbered 1..100
with page length 30, the requested range [45, 45] resolves exactly as the
spec example states: the collection has last page index 3, the page-level
search returns page index 1 (the page holding records 31..60), the
in-page search returns offset 14, and the flat index is
`14 + 1 * 30 = 44` for both endpoints. -/
theorem c7_example :
    ((List.range' 1 100).length - 1) / 30 = 3 ∧
    bin_search_in_list (List.range' 1 100) 30 45 5 0 3 = Except.ok 1 ∧
    get_page (List.range' 1 100) 30 1 = List.range' 31 30 ∧
    bin_search_in_page (get_page (List.range' 1 100) 30 1) 45 32 0 30 = Except.ok 14 ∧
    14 + 1 * 30 = 44 ∧
    get_api_item_indices (List.range' 1 100) 30 45 45 = Except.ok (44, 44) := by
  refine ⟨rfl, rfl, by decide, rfl, rfl, rfl⟩

/-- Claim C8, counterexample. The claim states that every extracted field
value is a string with exactly two exceptions (the boolean merged flag and
the string-sequence file list). Evaluating the PR entry builder on a
merged fixture PR whose configured commit field is `commit_files` shows
the persisted entry holds, under the `"commit_files"` key, an object
containing the integer values `additions`, `changes` and `removals` — a
value that is not a string, not a boolean, and not a sequence of strings,
refuting the claim. -/
theorem c8_counterexample :
    pr_entry "closed" ["pr_title"] ["commit_files"] sample_pr_merged =
      Except.ok ("9", JVal.obj
        [("__pr_merged", JVal.b true),
         ("pr_title", JVal.s "pt"),
         ("commit_files", JVal.obj
           [("file_list", JVal.arr [JVal.s "a.txt"]),
            ("additions", JVal.i 1),
            ("changes", JVal.i 2),
            ("patch_text", JVal.s "p,"),
            ("removals", JVal.i 1),
            ("status", JVal.s "\"m, \"")])]) ∧
    isStr (JVal.obj
           [("file_list", JVal.arr [JVal.s "a.txt"]),
            ("additions", JVal.i 1),
            ("changes", JVal.i 2),
            ("patch_text", JVal.s "p,"),
            ("removals", JVal.i 1),
            ("status", JVal.s "\"m, \"")]) = false ∧
    isBool (JVal.obj
           [("file_list", JVal.arr [JVal.s "a.txt"]),
            ("additions", JVal.i 1),
            ("changes", JVal.i 2),
            ("patch_text", JVal.s "p,"),
            ("removals", JVal.i 1),
            ("status", JVal.s "\"m, \"")]) = false ∧
    isStrArr (JVal.obj
           [("file_list", JVal.arr [JVal.s "a.txt"]),
            ("additions", JVal.i 1),
            ("changes", JVal.i 2),
            ("patch_text", JVal.s "p,"),
            ("removals", JVal.i 1),
            ("status", JVal.s "\"m, \"")]) = false ∧
    isStr (JVal.i 1) = false := by
  refine ⟨rfl, rfl, rfl, rfl, rfl⟩

/-- Claim C8, amended. Every issue field extractor produces a string;
every PR field extractor produces a string except `__pr_merged`, which
produces a boolean; every commit field extractor produces a string except
`commit_files`, which produces an object holding a string array
`file_list`, integer `additions`/`changes`/`removals` totals and string
`patch_text`/`status` fields. These shapes exclude `null` everywhere:
missing or empty text reaches the output only as the `"Nan"`/`"NaN"`
placeholder produced by `_clean_str` and `_get_closed_time`. -/
theorem c8_amended (fi fp fc : String) (gi gp : ApiObj → JVal) (gc : CommitObj → JVal)
    (a p : ApiObj) (c : CommitObj)
    (h1 : ISSUE_CMD_DISPATCH fi = some gi)
    (h2 : PR_CMD_DISPATCH fp = some gp)
    (h3 : COMMIT_CMD_DISPATCH fc = some gc) :
    isStr (gi a) = true ∧
    (if fp = "__pr_merged" then isBool (gp p) else isStr (gp p)) = true ∧
    (if fc = "commit_files" then isCommitFilesShape (gc c) else isStr (gc c)) = true := by
  refine ⟨?_, ?_, ?_⟩
  · unfold ISSUE_CMD_DISPATCH at h1
    split at h1 <;> first
      | (injection h1 with hg; subst hg; rfl)
      | (exact absurd h1 (by simp))
  · unfold PR_CMD_DISPATCH at h2
    split at h2 <;> first
      | (injection h2 with hg; subst hg; simp [isBool, isStr])
      | (exact absurd h2 (by simp))
  · unfold COMMIT_CMD_DISPATCH at h3
    split at h3 <;> first
      | (injection h3 with hg; subst hg;
         simp [isCommitFilesShape, isStr, get_commit_files, List.all_map, Function.comp])
      | (exact absurd h3 (by simp))

/-- Witness for the amended C8 at one concrete field of each kind. -/
theorem c8_witness :
    isStr ((fun a => JVal.s (get_body a)) sample_issue_one) = true ∧
    (if "__pr_merged" = "__pr_merged"
      then isBool ((fun a => JVal.b (get_pr_merged a)) sample_pr_merged)
      else isStr ((fun a => JVal.b (get_pr_merged a)) sample_pr_merged)) = true ∧
    (if "commit_files" = "commit_files"
      then isCommitFilesShape (get_commit_files sample_commit)
      else isStr (get_commit_files sample_commit)) = true :=
  c8_amended "issue_body" "__pr_merged" "commit_files"
    (fun a => JVal.s (get_body a)) (fun a => JVal.b (get_pr_merged a)) get_commit_files
    sample_issue_one sample_pr_merged sample_commit rfl rfl rfl

/-- Claim C9. The claim states that the in-page search is invoked with the
actual length of the page being searched, so every list access stays in
bounds. The source instead passes the configured session page length
(line 399). This theorem evaluates the failing input: a collection of 10
records numbered 1..10 under a configured page length of 30. Its single
page has actual length 10; invoked as the source does with 30, the search
immediately probes index `(0 + 30) / 2 = 15` and raises `IndexError`
(second conjunct), which propagates out of `_get_api_item_indices`
(fourth conjunct), whereas the same search invoked with the actual page
length 10 returns the correct offset 9 (third conjunct). -/
theorem c9_eval :
    (get_page (List.range' 1 10) 30 0).length = 10 ∧
    bin_search_in_page (get_page (List.range' 1 10) 30 0) 10 32 0 30 = Except.error PyErr.indexError ∧
    bin_search_in_page (get_page (List.range' 1 10) 30 0) 10 32 0 10 = Except.ok 9 ∧
    get_api_item_indices (List.range' 1 10) 30 10 10 = Except.error PyErr.indexError := by
  refine ⟨rfl, rfl, rfl, rfl⟩

/-- Claim C10. `_merge_dicts` returns a dictionary in which, for every
key, the value from `to_merge` wins when the key is present there and the
value from `base` is kept otherwise, and whose key set is the union of the
two inputs' key sets. The inputs are not mutated: the embedding of
`{**base, **to_merge}` is a pure function of its arguments, which are
returned unchanged to the caller by construction. The `Nodup` hypothesis
states that `to_merge` is a well-formed Python dict (no duplicate
keys). -/
theorem c10_merge_props {α : Type} (base to_merge : List (String × α))
    (h : (to_merge.map Prod.fst).Nodup) :
    (∀ k, dlookup (merge_dicts base to_merge) k =
      (dlookup to_merge k).orElse (fun _ => dlookup base k)) ∧
    (∀ k, containsKey (merge_dicts base to_merge) k =
      (containsKey base k || containsKey to_merge k)) :=
  ⟨fun k => dlookup_merge_dicts base to_merge h k,
   fun k => containsKey_merge_dicts base to_merge k⟩

/-- Witness for C10 on two concrete dictionaries with an overlapping
key. -/
theorem c10_witness :
    ([("a", (3 : Nat)), ("c", 4)].map Prod.fst).Nodup ∧
    dlookup (merge_dicts [("a", (1 : Nat)), ("b", 2)] [("a", 3), ("c", 4)]) "a" =
      (dlookup [("a", (3 : Nat)), ("c", 4)] "a").orElse
        (fun _ => dlookup [("a", (1 : Nat)), ("b", 2)] "a") ∧
    containsKey (merge_dicts [("a", (1 : Nat)), ("b", 2)] [("a", 3), ("c", 4)]) "b" =
      (containsKey [("a", (1 : Nat)), ("b", 2)] "b" ||
        containsKey [("a", (3 : Nat)), ("c", 4)] "b") :=
  ⟨by decide,
   (c10_merge_props [("a", 1), ("b", 2)] [("a", 3), ("c", 4)] (by decide)).1 "a",
   (c10_merge_props [("a", 1), ("b", 2)] [("a", 3), ("c", 4)] (by decide)).2 "b"⟩
